import Mathlib

/-!
# Dendy-Studio-Qt: the three raylib demo programs

The repository holds three copies of one C++ program (`Booyah`, `Test01`,
`Test02`).  Each `main` opens a window, sets a frame-rate target, polls
`WindowShouldClose` in a `while` loop whose body draws one line of text, then
closes the window and returns `0`.

The embedding records every raylib call `main` makes, with its arguments, in a
call trace.  The library itself is outside the repository, so its behaviour is
an explicit environment: the answers of `WindowShouldClose`, and whether
`InitWindow` hands control back to `main` at all.
-/

namespace Dendy

/-! ## Data model -/

/-- Colours named by the source.  `RAYWHITE` and `LIGHTGRAY` are macros of the
third-party header `raylib.h`; the programs only ever mention them by name, so
they are kept symbolic. -/
inductive Color where
  | RAYWHITE
  | LIGHTGRAY
  deriving DecidableEq, Repr

/-- One call from `main` into raylib, with the arguments it was given.  A
`WindowShouldClose` entry also records the answer the library returned. -/
inductive Call where
  | InitWindow (width height : Int) (title : String)
  | SetTargetFPS (fps : Int)
  | WindowShouldClose (answer : Bool)
  | BeginDrawing
  | ClearBackground (color : Color)
  | DrawText (text : String) (posX posY fontSize : Int) (color : Color)
  | EndDrawing
  | CloseWindow
  deriving DecidableEq, Repr

/-- Behaviour of the library as seen from `main`.  `InitWindow` returns `void`,
so `main` only observes whether the call comes back: `initAborts` is a library
that ends the process inside `InitWindow`; `initReturns acquired shouldClose` is
a library whose `InitWindow` returns and whose `k`-th `WindowShouldClose` poll,
counted from `0`, answers `shouldClose k`; `acquired` records whether the
display was acquired, which `main` has no means to observe. -/
inductive Library where
  | initAborts
  | initReturns (acquired : Bool) (shouldClose : Nat → Bool)

/-- How far a run got: `main` returned an exit code, the process was ended
inside a library call, or the loop is still running when the fuel ran out. -/
inductive Outcome where
  | returned (code : Int)
  | aborted
  | running
  deriving DecidableEq, Repr

/-- Local variables of `main`: `const int screenWidth`, `const int screenHeight`. -/
structure Locals where
  screenWidth : Int
  screenHeight : Int
  deriving DecidableEq, Repr

/-- Result of running `main` with a bound on the number of polls. -/
structure Run where
  trace : List Call
  outcome : Outcome
  locals : Locals
  deriving DecidableEq, Repr

/-! ## The three programs -/

namespace Booyah

/-- Body of the `while` loop, `Booyah/main.cpp` lines 11-14. -/
def body (s : Locals) : List Call × Locals :=
  ([Call.BeginDrawing,
    Call.ClearBackground Color.RAYWHITE,
    Call.DrawText "Hello, sheep! Hello, cup of tea!" 190 200 20 Color.LIGHTGRAY,
    Call.EndDrawing], s)

/-- The loop `while (!WindowShouldClose()) { ... }`, line 10.  `fuel` bounds the
number of polls, `k` counts the polls already made.  The flag tells whether the
loop was left. -/
def loop (shouldClose : Nat → Bool) : Nat → Nat → Locals → List Call × Bool × Locals
  | 0, _, s => ([], false, s)
  | fuel + 1, k, s =>
    if shouldClose k then ([Call.WindowShouldClose true], true, s)
    else
      match body s with
      | (frame, s1) =>
        match loop shouldClose fuel (k + 1) s1 with
        | (rest, exited, s2) => (Call.WindowShouldClose false :: frame ++ rest, exited, s2)

/-- The function `main` of `Booyah/main.cpp`, lines 3-20: `InitWindow`, `SetTargetFPS(60)`,
the loop, `CloseWindow`, `return 0`.  When the library ends the process inside
`InitWindow`, nothing after that call runs. -/
def main (lib : Library) (fuel : Nat) : Run :=
  let s : Locals := { screenWidth := 800, screenHeight := 450 }
  match lib with
  | Library.initAborts =>
    { trace := [Call.InitWindow s.screenWidth s.screenHeight "Dendy Project"],
      outcome := Outcome.aborted, locals := s }
  | Library.initReturns _ shouldClose =>
    match loop shouldClose fuel 0 s with
    | (t, true, s1) =>
      { trace := [Call.InitWindow s.screenWidth s.screenHeight "Dendy Project",
                  Call.SetTargetFPS 60] ++ t ++ [Call.CloseWindow],
        outcome := Outcome.returned 0, locals := s1 }
    | (t, false, s1) =>
      { trace := [Call.InitWindow s.screenWidth s.screenHeight "Dendy Project",
                  Call.SetTargetFPS 60] ++ t,
        outcome := Outcome.running, locals := s1 }

end Booyah

namespace Test01

/-- Body of the `while` loop, `Test01/main.cpp` lines 16-19. -/
def body (s : Locals) : List Call × Locals :=
  ([Call.BeginDrawing,
    Call.ClearBackground Color.RAYWHITE,
    Call.DrawText "Hello, Raylib!" 190 200 20 Color.LIGHTGRAY,
    Call.EndDrawing], s)

/-- The loop `while (!WindowShouldClose()) { ... }`, line 12. -/
def loop (shouldClose : Nat → Bool) : Nat → Nat → Locals → List Call × Bool × Locals
  | 0, _, s => ([], false, s)
  | fuel + 1, k, s =>
    if shouldClose k then ([Call.WindowShouldClose true], true, s)
    else
      match body s with
      | (frame, s1) =>
        match loop shouldClose fuel (k + 1) s1 with
        | (rest, exited, s2) => (Call.WindowShouldClose false :: frame ++ rest, exited, s2)

/-- The function `main` of `Test01/main.cpp`, lines 3-26: `InitWindow`, `SetTargetFPS(60)`,
the loop, `CloseWindow`, `return 0`.  When the library ends the process inside
`InitWindow`, nothing after that call runs. -/
def main (lib : Library) (fuel : Nat) : Run :=
  let s : Locals := { screenWidth := 800, screenHeight := 450 }
  match lib with
  | Library.initAborts =>
    { trace := [Call.InitWindow s.screenWidth s.screenHeight "Raylib Project"],
      outcome := Outcome.aborted, locals := s }
  | Library.initReturns _ shouldClose =>
    match loop shouldClose fuel 0 s with
    | (t, true, s1) =>
      { trace := [Call.InitWindow s.screenWidth s.screenHeight "Raylib Project",
                  Call.SetTargetFPS 60] ++ t ++ [Call.CloseWindow],
        outcome := Outcome.returned 0, locals := s1 }
    | (t, false, s1) =>
      { trace := [Call.InitWindow s.screenWidth s.screenHeight "Raylib Project",
                  Call.SetTargetFPS 60] ++ t,
        outcome := Outcome.running, locals := s1 }

end Test01

namespace Test02

/-- Body of the `while` loop, `Test02/main.cpp` lines 16-19. -/
def body (s : Locals) : List Call × Locals :=
  ([Call.BeginDrawing,
    Call.ClearBackground Color.RAYWHITE,
    Call.DrawText "Hello, sheep! Hello, cup of tea!" 190 200 20 Color.LIGHTGRAY,
    Call.EndDrawing], s)

/-- The loop `while (!WindowShouldClose()) { ... }`, line 12. -/
def loop (shouldClose : Nat → Bool) : Nat → Nat → Locals → List Call × Bool × Locals
  | 0, _, s => ([], false, s)
  | fuel + 1, k, s =>
    if shouldClose k then ([Call.WindowShouldClose true], true, s)
    else
      match body s with
      | (frame, s1) =>
        match loop shouldClose fuel (k + 1) s1 with
        | (rest, exited, s2) => (Call.WindowShouldClose false :: frame ++ rest, exited, s2)

/-- The function `main` of `Test02/main.cpp`, lines 3-26: `InitWindow`, `SetTargetFPS(60)`,
the loop, `CloseWindow`, `return 0`.  When the library ends the process inside
`InitWindow`, nothing after that call runs. -/
def main (lib : Library) (fuel : Nat) : Run :=
  let s : Locals := { screenWidth := 800, screenHeight := 450 }
  match lib with
  | Library.initAborts =>
    { trace := [Call.InitWindow s.screenWidth s.screenHeight "Dendy Project"],
      outcome := Outcome.aborted, locals := s }
  | Library.initReturns _ shouldClose =>
    match loop shouldClose fuel 0 s with
    | (t, true, s1) =>
      { trace := [Call.InitWindow s.screenWidth s.screenHeight "Dendy Project",
                  Call.SetTargetFPS 60] ++ t ++ [Call.CloseWindow],
        outcome := Outcome.returned 0, locals := s1 }
    | (t, false, s1) =>
      { trace := [Call.InitWindow s.screenWidth s.screenHeight "Dendy Project",
                  Call.SetTargetFPS 60] ++ t,
        outcome := Outcome.running, locals := s1 }

end Test02

/-- The three program instances of the repository. -/
inductive Instance where
  | Booyah
  | Test01
  | Test02
  deriving DecidableEq, Repr

/-- The `main` function of an instance. -/
def Instance.main : Instance → Library → Nat → Run
  | Instance.Booyah => Booyah.main
  | Instance.Test01 => Test01.main
  | Instance.Test02 => Test02.main

/-- The loop body of an instance. -/
def Instance.body : Instance → Locals → List Call × Locals
  | Instance.Booyah => Booyah.body
  | Instance.Test01 => Test01.body
  | Instance.Test02 => Test02.body

/-! ## Specification-side definitions -/

/-- Window title the specification gives for each instance. -/
def Instance.title : Instance → String
  | Instance.Booyah => "Dendy Project"
  | Instance.Test01 => "Raylib Project"
  | Instance.Test02 => "Dendy Project"

/-- Rendered text the specification gives for each instance. -/
def Instance.text : Instance → String
  | Instance.Booyah => "Hello, sheep! Hello, cup of tea!"
  | Instance.Test01 => "Hello, Raylib!"
  | Instance.Test02 => "Hello, sheep! Hello, cup of tea!"

/-- The frame of the specification: begin, clear to the background colour, draw
the text at (190, 200) with size 20 in light gray, end. -/
def renderFrame (text : String) : List Call :=
  [Call.BeginDrawing,
   Call.ClearBackground Color.RAYWHITE,
   Call.DrawText text 190 200 20 Color.LIGHTGRAY,
   Call.EndDrawing]

/-- Trace of `n` loop iterations: each is one poll answering `false` followed
by one frame. -/
def iterations (text : String) : Nat → List Call
  | 0 => []
  | n + 1 => Call.WindowShouldClose false :: renderFrame text ++ iterations text n

/-- Calls made before the loop is entered. -/
def startup (title : String) : List Call :=
  [Call.InitWindow 800 450 title, Call.SetTargetFPS 60]

/-- Loop of the parameterised shell. -/
def shellLoop (text : String) (shouldClose : Nat → Bool) :
    Nat → Nat → Locals → List Call × Bool × Locals
  | 0, _, s => ([], false, s)
  | fuel + 1, k, s =>
    if shouldClose k then ([Call.WindowShouldClose true], true, s)
    else
      match shellLoop text shouldClose fuel (k + 1) s with
      | (rest, exited, s1) =>
        (Call.WindowShouldClose false :: renderFrame text ++ rest, exited, s1)

/-- The single shell of the specification, parameterised by title and text:
initialise an 800 by 450 window with the title, cap the rate at 60, poll and
render until the close signal, shut down, exit with 0. -/
def shell (title text : String) (lib : Library) (fuel : Nat) : Run :=
  match lib with
  | Library.initAborts =>
    { trace := [Call.InitWindow 800 450 title], outcome := Outcome.aborted,
      locals := { screenWidth := 800, screenHeight := 450 } }
  | Library.initReturns _ shouldClose =>
    match shellLoop text shouldClose fuel 0 { screenWidth := 800, screenHeight := 450 } with
    | (t, true, s1) =>
      { trace := startup title ++ t ++ [Call.CloseWindow],
        outcome := Outcome.returned 0, locals := s1 }
    | (t, false, s1) =>
      { trace := startup title ++ t, outcome := Outcome.running, locals := s1 }

/-- Number of `WindowShouldClose` polls in a trace. -/
def pollCount (t : List Call) : Nat :=
  t.countP (fun c => match c with | Call.WindowShouldClose _ => true | _ => false)

/-- Number of frames begun in a trace. -/
def frameCount (t : List Call) : Nat := t.count Call.BeginDrawing

/-- The calls that only a frame may contain. -/
def Call.isDrawing : Call → Bool
  | Call.BeginDrawing => true
  | Call.ClearBackground _ => true
  | Call.DrawText _ _ _ _ _ => true
  | Call.EndDrawing => true
  | _ => false

/-- The initial values of the locals of `main`. -/
def initialLocals : Locals := { screenWidth := 800, screenHeight := 450 }

/-- Cut a trace into its frames: each frame runs from a `BeginDrawing` up to and
including the next `EndDrawing`.  The first argument is the frame being
collected, if one is open. -/
def framesFrom : Option (List Call) → List Call → List (List Call)
  | _, [] => []
  | none, Call.BeginDrawing :: t => framesFrom (some [Call.BeginDrawing]) t
  | none, _ :: t => framesFrom none t
  | some cur, Call.EndDrawing :: t => (cur ++ [Call.EndDrawing]) :: framesFrom none t
  | some cur, c :: t => framesFrom (some (cur ++ [c])) t

/-- The frames of a trace, in the order they were drawn. -/
def framesOf (t : List Call) : List (List Call) := framesFrom none t

/-- A trace is framed when every poll that answered false is directly followed
by the four calls of the frame, and every drawing call is one of the four calls
that follow such a poll. -/
def Framed (text : String) (t : List Call) : Prop :=
  ∀ i,
    (t[i]? = some (Call.WindowShouldClose false) →
      t[i + 1]? = some Call.BeginDrawing
      ∧ t[i + 2]? = some (Call.ClearBackground Color.RAYWHITE)
      ∧ t[i + 3]? = some (Call.DrawText text 190 200 20 Color.LIGHTGRAY)
      ∧ t[i + 4]? = some Call.EndDrawing)
    ∧ ∀ c, t[i]? = some c → c.isDrawing = true →
        ∃ j, j < i ∧ i ≤ j + 4 ∧ t[j]? = some (Call.WindowShouldClose false)

/-- What the program is started on: whether the display or windowing system
can be acquired, and the answers the close poll will give. -/
structure Platform where
  displayAvailable : Bool
  shouldClose : Nat → Bool

/-- Modelled from the spec: the behaviour of raylib's `InitWindow`, whose code
is not in the repository.  Section 4.1 says of `initialize` that it "fails
fatally (process aborts or library-defined error) if the underlying
display/windowing system cannot be acquired", and section 7 that the library's
startup failure "is treated as fatal and unrecoverable".  So without a display
the library ends the process inside `InitWindow`; with one, `InitWindow`
acquires it and returns, and the polls answer as the platform says. -/
def raylib (p : Platform) : Library :=
  if p.displayAvailable then Library.initReturns true p.shouldClose
  else Library.initAborts

/-! ## Relating the programs to the shell -/

theorem booyah_loop_eq_shellLoop (sc : Nat → Bool) (fuel k : Nat) (s : Locals) :
    Booyah.loop sc fuel k s = shellLoop "Hello, sheep! Hello, cup of tea!" sc fuel k s := by
  induction fuel generalizing k s with
  | zero => rfl
  | succ fuel ih =>
    simp only [Booyah.loop, shellLoop, Booyah.body, renderFrame, ih]

theorem test01_loop_eq_shellLoop (sc : Nat → Bool) (fuel k : Nat) (s : Locals) :
    Test01.loop sc fuel k s = shellLoop "Hello, Raylib!" sc fuel k s := by
  induction fuel generalizing k s with
  | zero => rfl
  | succ fuel ih =>
    simp only [Test01.loop, shellLoop, Test01.body, renderFrame, ih]

theorem test02_loop_eq_shellLoop (sc : Nat → Bool) (fuel k : Nat) (s : Locals) :
    Test02.loop sc fuel k s = shellLoop "Hello, sheep! Hello, cup of tea!" sc fuel k s := by
  induction fuel generalizing k s with
  | zero => rfl
  | succ fuel ih =>
    simp only [Test02.loop, shellLoop, Test02.body, renderFrame, ih]

theorem booyah_main_eq_shell (lib : Library) (fuel : Nat) :
    Booyah.main lib fuel = shell "Dendy Project" "Hello, sheep! Hello, cup of tea!" lib fuel := by
  cases lib with
  | initAborts => rfl
  | initReturns a sc =>
    simp only [Booyah.main, shell, startup, booyah_loop_eq_shellLoop]

theorem test01_main_eq_shell (lib : Library) (fuel : Nat) :
    Test01.main lib fuel = shell "Raylib Project" "Hello, Raylib!" lib fuel := by
  cases lib with
  | initAborts => rfl
  | initReturns a sc =>
    simp only [Test01.main, shell, startup, test01_loop_eq_shellLoop]

theorem test02_main_eq_shell (lib : Library) (fuel : Nat) :
    Test02.main lib fuel = shell "Dendy Project" "Hello, sheep! Hello, cup of tea!" lib fuel := by
  cases lib with
  | initAborts => rfl
  | initReturns a sc =>
    simp only [Test02.main, shell, startup, test02_loop_eq_shellLoop]

theorem instance_main_eq_shell (inst : Instance) (lib : Library) (fuel : Nat) :
    inst.main lib fuel = shell inst.title inst.text lib fuel := by
  cases inst
  · exact booyah_main_eq_shell lib fuel
  · exact test01_main_eq_shell lib fuel
  · exact test02_main_eq_shell lib fuel

/-! ## Shape of the loop trace -/

theorem shellLoop_closes (text : String) (sc : Nat → Bool) (n : Nat) :
    ∀ (fuel k : Nat) (s : Locals), (∀ i, i < n → sc (k + i) = false) → sc (k + n) = true →
      n < fuel →
      shellLoop text sc fuel k s = (iterations text n ++ [Call.WindowShouldClose true], true, s) := by
  induction n with
  | zero =>
    intro fuel k s _ htrue hfuel
    obtain ⟨f, rfl⟩ : ∃ f, fuel = f + 1 := ⟨fuel - 1, by omega⟩
    have h0 : sc k = true := by simpa using htrue
    simp [shellLoop, h0, iterations]
  | succ n ih =>
    intro fuel k s hfalse htrue hfuel
    obtain ⟨f, rfl⟩ : ∃ f, fuel = f + 1 := ⟨fuel - 1, by omega⟩
    have h0 : sc k = false := by simpa using hfalse 0 (by omega)
    have hrec := ih f (k + 1) s
      (fun i hi => by have := hfalse (i + 1) (by omega); rwa [show k + 1 + i = k + (i + 1) by omega])
      (by rwa [show k + 1 + n = k + (n + 1) by omega]) (by omega)
    simp [shellLoop, h0, hrec, iterations]

theorem shellLoop_runs (text : String) (sc : Nat → Bool) (fuel : Nat) :
    ∀ (k : Nat) (s : Locals), (∀ i, i < fuel → sc (k + i) = false) →
      shellLoop text sc fuel k s = (iterations text fuel, false, s) := by
  induction fuel with
  | zero => intro k s _; rfl
  | succ f ih =>
    intro k s hfalse
    have h0 : sc k = false := by simpa using hfalse 0 (by omega)
    have hrec := ih (k + 1) s
      (fun i hi => by have := hfalse (i + 1) (by omega); rwa [show k + 1 + i = k + (i + 1) by omega])
    simp [shellLoop, h0, hrec, iterations]

theorem shellLoop_shape (text : String) (sc : Nat → Bool) (fuel : Nat) :
    ∀ (k : Nat) (s : Locals), ∃ n, (∀ i, i < n → sc (k + i) = false) ∧
      ((n = fuel ∧ shellLoop text sc fuel k s = (iterations text n, false, s)) ∨
       (n < fuel ∧ sc (k + n) = true ∧
        shellLoop text sc fuel k s
          = (iterations text n ++ [Call.WindowShouldClose true], true, s))) := by
  induction fuel with
  | zero => intro k s; exact ⟨0, by simp, Or.inl ⟨rfl, rfl⟩⟩
  | succ f ih =>
    intro k s
    by_cases h0 : sc k = true
    · exact ⟨0, by simp, Or.inr ⟨by omega, by simpa using h0, by simp [shellLoop, h0, iterations]⟩⟩
    · have h0f : sc k = false := by simpa using h0
      obtain ⟨n, hfalse, hcase⟩ := ih (k + 1) s
      refine ⟨n + 1, ?_, ?_⟩
      · intro i hi
        cases i with
        | zero => simpa using h0f
        | succ j =>
          have := hfalse j (by omega)
          rwa [show k + (j + 1) = k + 1 + j by omega]
      · rcases hcase with ⟨hn, hrun⟩ | ⟨hn, htrue, hrun⟩
        · exact Or.inl ⟨by omega, by simp [shellLoop, h0f, hrun, iterations]⟩
        · refine Or.inr ⟨by omega, ?_, by simp [shellLoop, h0f, hrun, iterations]⟩
          rwa [show k + (n + 1) = k + 1 + n by omega]

/-- Every bounded run of the shell whose `InitWindow` returns is the startup
calls, then `n` iterations, then either nothing more (still running) or the
closing poll and `CloseWindow` (returned 0). -/
theorem shell_shape (title text : String) (a : Bool) (sc : Nat → Bool) (fuel : Nat) :
    ∃ n, (∀ i, i < n → sc i = false) ∧
      ((n = fuel ∧ shell title text (Library.initReturns a sc) fuel
          = { trace := startup title ++ iterations text n,
              outcome := Outcome.running, locals := initialLocals }) ∨
       (n < fuel ∧ sc n = true ∧ shell title text (Library.initReturns a sc) fuel
          = { trace := startup title ++ iterations text n
                ++ [Call.WindowShouldClose true, Call.CloseWindow],
              outcome := Outcome.returned 0, locals := initialLocals })) := by
  obtain ⟨n, hfalse, hcase⟩ := shellLoop_shape text sc fuel 0 initialLocals
  refine ⟨n, fun i hi => by simpa using hfalse i hi, ?_⟩
  rcases hcase with ⟨hn, hrun⟩ | ⟨hn, htrue, hrun⟩
  · left
    refine ⟨hn, ?_⟩
    simp only [shell]
    rw [show ({ screenWidth := 800, screenHeight := 450 } : Locals) = initialLocals from rfl, hrun]
  · right
    refine ⟨hn, by simpa using htrue, ?_⟩
    simp only [shell]
    rw [show ({ screenWidth := 800, screenHeight := 450 } : Locals) = initialLocals from rfl, hrun]
    simp

theorem iterations_eq_flatten (text : String) (n : Nat) :
    iterations text n
      = (List.replicate n (Call.WindowShouldClose false :: renderFrame text)).flatten := by
  induction n with
  | zero => rfl
  | succ n ih => simp [iterations, List.replicate_succ, ih]

/-- A run of the shell in which the first `n` polls answer `false` and the next
one answers `true`, given fuel for more than `n` polls. -/
theorem shell_closes (title text : String) (a : Bool) (sc : Nat → Bool) (n fuel : Nat)
    (hfalse : ∀ i, i < n → sc i = false) (htrue : sc n = true) (hfuel : n < fuel) :
    shell title text (Library.initReturns a sc) fuel
      = { trace := startup title ++ iterations text n
            ++ [Call.WindowShouldClose true, Call.CloseWindow],
          outcome := Outcome.returned 0, locals := initialLocals } := by
  have hrun := shellLoop_closes text sc n fuel 0 initialLocals
    (fun i hi => by simpa using hfalse i hi) (by simpa using htrue) hfuel
  simp only [shell]
  rw [show ({ screenWidth := 800, screenHeight := 450 } : Locals) = initialLocals from rfl, hrun]
  simp

/-- A run of the shell in which every poll the fuel allows answers `false`. -/
theorem shell_runs (title text : String) (a : Bool) (sc : Nat → Bool) (fuel : Nat)
    (hfalse : ∀ i, i < fuel → sc i = false) :
    shell title text (Library.initReturns a sc) fuel
      = { trace := startup title ++ iterations text fuel,
          outcome := Outcome.running, locals := initialLocals } := by
  have hrun := shellLoop_runs text sc fuel 0 initialLocals
    (fun i hi => by simpa using hfalse i hi)
  simp only [shell]
  rw [show ({ screenWidth := 800, screenHeight := 450 } : Locals) = initialLocals from rfl, hrun]

/-! ## Counting and membership in the loop trace -/

theorem pollCount_append (t u : List Call) : pollCount (t ++ u) = pollCount t + pollCount u := by
  simp [pollCount, List.countP_append]

theorem frameCount_append (t u : List Call) :
    frameCount (t ++ u) = frameCount t + frameCount u := by
  simp [frameCount, List.count_append]

theorem pollCount_iterations (text : String) (n : Nat) : pollCount (iterations text n) = n := by
  induction n with
  | zero => rfl
  | succ n ih =>
    have hstep : pollCount (iterations text (n + 1)) = pollCount (iterations text n) + 1 := by
      simp [iterations, renderFrame, pollCount, List.countP_cons]
    omega

theorem frameCount_iterations (text : String) (n : Nat) : frameCount (iterations text n) = n := by
  induction n with
  | zero => rfl
  | succ n ih =>
    have hstep : frameCount (iterations text (n + 1)) = frameCount (iterations text n) + 1 := by
      simp [iterations, renderFrame, frameCount, List.count_cons]
    omega

theorem pollCount_startup (title : String) : pollCount (startup title) = 0 := by
  simp [pollCount, startup]

theorem frameCount_startup (title : String) : frameCount (startup title) = 0 := by
  simp [frameCount, startup]

theorem closeWindow_not_mem_iterations (text : String) (n : Nat) :
    Call.CloseWindow ∉ iterations text n := by
  induction n with
  | zero => simp [iterations]
  | succ n ih => simp [iterations, renderFrame, ih]

theorem closingPoll_not_mem_iterations (text : String) (n : Nat) :
    Call.WindowShouldClose true ∉ iterations text n := by
  induction n with
  | zero => simp [iterations]
  | succ n ih => simp [iterations, renderFrame, ih]

/-- In every bounded run of an instance whose `InitWindow` returns, the trace is
the startup calls, `n` iterations, and then either nothing (still running) or
the closing poll and `CloseWindow` (returned 0). -/
theorem instance_main_shape (inst : Instance) (a : Bool) (sc : Nat → Bool) (fuel : Nat) :
    ∃ n, (∀ i, i < n → sc i = false) ∧
      ((n = fuel ∧ inst.main (Library.initReturns a sc) fuel
          = { trace := startup inst.title ++ iterations inst.text n,
              outcome := Outcome.running, locals := initialLocals }) ∨
       (n < fuel ∧ sc n = true ∧ inst.main (Library.initReturns a sc) fuel
          = { trace := startup inst.title ++ iterations inst.text n
                ++ [Call.WindowShouldClose true, Call.CloseWindow],
              outcome := Outcome.returned 0, locals := initialLocals })) := by
  rw [instance_main_eq_shell]
  exact shell_shape inst.title inst.text a sc fuel

theorem instance_main_initAborts (inst : Instance) (fuel : Nat) :
    inst.main Library.initAborts fuel
      = { trace := [Call.InitWindow 800 450 inst.title], outcome := Outcome.aborted,
          locals := initialLocals } := by
  cases inst <;> rfl

/-- If a list without `c` is followed by `d` and `c`, the only way to split the
whole at an occurrence of `c` is at its last position. -/
theorem split_at_final (c d : Call) (hdc : d ≠ c) :
    ∀ (X a b : List Call), c ∉ X → X ++ [d, c] = a ++ c :: b → a = X ++ [d] ∧ b = [] := by
  intro X
  induction X with
  | nil =>
    intro a b _ h
    cases a with
    | nil => simp at h; exact absurd h.1 hdc
    | cons x a1 =>
      cases a1 with
      | nil => simp at h; simp [h.1, h.2]
      | cons y a2 => simp at h
  | cons x X ih =>
    intro a b hc h
    cases a with
    | nil =>
      simp at h
      exact absurd h.1.symm (by intro hx; exact hc (by simp [hx]))
    | cons y a1 =>
      simp only [List.cons_append, List.cons.injEq] at h
      obtain ⟨ha, hb⟩ := ih a1 b (fun hm => hc (List.mem_cons_of_mem _ hm)) h.2
      exact ⟨by simp [h.1, ha], hb⟩

theorem framesFrom_iterations (text : String) (n : Nat) (tail : List Call) :
    framesFrom none (iterations text n ++ tail)
      = List.replicate n (renderFrame text) ++ framesFrom none tail := by
  induction n with
  | zero => simp [iterations]
  | succ n ih =>
    simp [iterations, renderFrame, framesFrom, List.replicate_succ] at ih ⊢
    exact ih

theorem framesOf_startup (title : String) (t : List Call) :
    framesOf (startup title ++ t) = framesFrom none t := by
  simp [framesOf, startup, framesFrom]

/-- In a loop trace a frame begins exactly after a poll that answered false. -/
theorem iterations_adjacent (text : String) (tail : List Call)
    (h0 : tail[0]? ≠ some Call.BeginDrawing)
    (hadj : ∀ i, tail[i + 1]? = some Call.BeginDrawing
      ↔ tail[i]? = some (Call.WindowShouldClose false)) :
    ∀ n, (iterations text n ++ tail)[0]? ≠ some Call.BeginDrawing
      ∧ ∀ i, (iterations text n ++ tail)[i + 1]? = some Call.BeginDrawing
          ↔ (iterations text n ++ tail)[i]? = some (Call.WindowShouldClose false) := by
  intro n
  induction n with
  | zero => simpa [iterations] using ⟨h0, hadj⟩
  | succ n ih =>
    obtain ⟨ih0, ihadj⟩ := ih
    refine ⟨by simp [iterations], ?_⟩
    intro i
    rcases i with _ | _ | _ | _ | _ | j
    · simp [iterations, renderFrame]
    · simp [iterations, renderFrame]
    · simp [iterations, renderFrame]
    · simp [iterations, renderFrame]
    · simpa [iterations, renderFrame] using ih0
    · simpa [iterations, renderFrame] using ihadj j

theorem framed_nil (text : String) : Framed text [] := by
  intro i
  simp

/-- A call that is neither a poll answering false nor a drawing call can be put
in front of a framed trace. -/
theorem framed_cons (text : String) (x : Call) (t : List Call)
    (hpoll : x ≠ Call.WindowShouldClose false) (hdraw : x.isDrawing = false)
    (ht : Framed text t) : Framed text (x :: t) := by
  intro i
  cases i with
  | zero =>
    refine ⟨fun h => absurd (by simpa using h) hpoll, ?_⟩
    intro c hc hd
    have hx : x = c := by simpa using hc
    rw [← hx, hdraw] at hd
    cases hd
  | succ k =>
    obtain ⟨h1, h2⟩ := ht k
    constructor
    · intro h
      have := h1 (by simpa using h)
      simpa using this
    · intro c hc hd
      obtain ⟨j, hj, hij, hpj⟩ := h2 c (by simpa using hc) hd
      exact ⟨j + 1, by omega, by omega, by simpa using hpj⟩

/-- One more iteration in front of a framed trace keeps it framed. -/
theorem framed_iteration (text : String) (t : List Call) (ht : Framed text t) :
    Framed text (Call.WindowShouldClose false :: renderFrame text ++ t) := by
  have h0 : (Call.WindowShouldClose false :: renderFrame text ++ t)[0]?
      = some (Call.WindowShouldClose false) := by simp
  intro i
  rcases i with _ | _ | _ | _ | _ | k
  · exact ⟨fun _ => by simp [renderFrame], fun c hc hd => by
      have hx : Call.WindowShouldClose false = c := by simpa using hc
      rw [← hx] at hd; cases hd⟩
  · exact ⟨fun h => by simp [renderFrame] at h, fun _ _ _ => ⟨0, by omega, by omega, h0⟩⟩
  · exact ⟨fun h => by simp [renderFrame] at h, fun _ _ _ => ⟨0, by omega, by omega, h0⟩⟩
  · exact ⟨fun h => by simp [renderFrame] at h, fun _ _ _ => ⟨0, by omega, by omega, h0⟩⟩
  · exact ⟨fun h => by simp [renderFrame] at h, fun _ _ _ => ⟨0, by omega, by omega, h0⟩⟩
  · obtain ⟨h1, h2⟩ := ht k
    constructor
    · intro h
      have := h1 (by simpa [renderFrame] using h)
      simpa [renderFrame] using this
    · intro c hc hd
      obtain ⟨j, hj, hij, hpj⟩ := h2 c (by simpa [renderFrame] using hc) hd
      exact ⟨j + 5, by omega, by omega, by simpa [renderFrame] using hpj⟩

theorem framed_iterations (text : String) (tail : List Call) (ht : Framed text tail) :
    ∀ n, Framed text (iterations text n ++ tail) := by
  intro n
  induction n with
  | zero => simpa [iterations] using ht
  | succ n ih =>
    have h := framed_iteration text _ ih
    simpa [iterations] using h

/-- Every bounded run of an instance whose `InitWindow` returns has a framed
trace. -/
theorem instance_main_framed (inst : Instance) (a : Bool) (sc : Nat → Bool) (fuel : Nat) :
    Framed inst.text (inst.main (Library.initReturns a sc) fuel).trace := by
  have hclose : Framed inst.text [Call.WindowShouldClose true, Call.CloseWindow] :=
    framed_cons _ _ _ (by simp) rfl (framed_cons _ _ _ (by simp) rfl (framed_nil _))
  obtain ⟨n, -, ⟨-, hrun⟩ | ⟨-, -, hrun⟩⟩ := instance_main_shape inst a sc fuel
  · rw [hrun]
    have h := framed_iterations inst.text [] (framed_nil _) n
    simp only [List.append_nil] at h
    exact framed_cons _ _ _ (by simp) rfl (framed_cons _ _ _ (by simp) rfl h)
  · rw [hrun]
    have h := framed_iterations inst.text _ hclose n
    have hall := framed_cons inst.text (Call.InitWindow 800 450 inst.title) _ (by simp) rfl
      (framed_cons inst.text (Call.SetTargetFPS 60) _ (by simp) rfl h)
    simpa [startup] using hall

/-! ## Scenarios -/

/-- C1: when `WindowShouldClose` answers false on its first `n` polls and true
on poll `n + 1`, the Booyah `main` (given fuel for those polls) issues exactly
`InitWindow(800, 450, "Dendy Project")`, `SetTargetFPS(60)`, then `n` times a poll
followed by begin, clear to RAYWHITE, the text at (190, 200) size 20 in
LIGHTGRAY, end; then the closing poll and `CloseWindow`; and returns 0. -/
theorem booyah_scenario (n : Nat) (acquired : Bool) (shouldClose : Nat → Bool) (fuel : Nat)
    (hfalse : ∀ i, i < n → shouldClose i = false) (htrue : shouldClose n = true)
    (hfuel : n < fuel) :
    (Booyah.main (Library.initReturns acquired shouldClose) fuel).trace
        = [Call.InitWindow 800 450 "Dendy Project", Call.SetTargetFPS 60]
          ++ (List.replicate n
                [Call.WindowShouldClose false,
                 Call.BeginDrawing,
                 Call.ClearBackground Color.RAYWHITE,
                 Call.DrawText "Hello, sheep! Hello, cup of tea!" 190 200 20 Color.LIGHTGRAY,
                 Call.EndDrawing]).flatten
          ++ [Call.WindowShouldClose true, Call.CloseWindow]
      ∧ (Booyah.main (Library.initReturns acquired shouldClose) fuel).outcome
          = Outcome.returned 0 := by
  rw [booyah_main_eq_shell, shell_closes _ _ acquired shouldClose n fuel hfalse htrue hfuel,
    iterations_eq_flatten]
  exact ⟨rfl, rfl⟩

/-- Witness of C1 with two rendered frames. -/
theorem booyah_scenario_witness :
    ((∀ i, i < 2 → (fun k => decide (2 ≤ k)) i = false) ∧ (fun k => decide (2 ≤ k)) 2 = true
      ∧ 2 < 3)
    ∧ (Booyah.main (Library.initReturns true (fun k => decide (2 ≤ k))) 3).trace
        = [Call.InitWindow 800 450 "Dendy Project", Call.SetTargetFPS 60]
          ++ (List.replicate 2
                [Call.WindowShouldClose false,
                 Call.BeginDrawing,
                 Call.ClearBackground Color.RAYWHITE,
                 Call.DrawText "Hello, sheep! Hello, cup of tea!" 190 200 20 Color.LIGHTGRAY,
                 Call.EndDrawing]).flatten
          ++ [Call.WindowShouldClose true, Call.CloseWindow]
    ∧ (Booyah.main (Library.initReturns true (fun k => decide (2 ≤ k))) 3).outcome
        = Outcome.returned 0 :=
  ⟨⟨by decide, by decide, by decide⟩,
    booyah_scenario 2 true (fun k => decide (2 ≤ k)) 3 (by decide) (by decide) (by decide)⟩

/-- C2: when `WindowShouldClose` answers false on its first `n` polls and true
on poll `n + 1`, the Test01 `main` (given fuel for those polls) issues exactly
`InitWindow(800, 450, "Raylib Project")`, `SetTargetFPS(60)`, then `n` times a
poll followed by begin, clear to RAYWHITE, "Hello, Raylib!" at (190, 200) size 20
in LIGHTGRAY, end; then the closing poll and `CloseWindow`; and returns 0. -/
theorem test01_scenario (n : Nat) (acquired : Bool) (shouldClose : Nat → Bool) (fuel : Nat)
    (hfalse : ∀ i, i < n → shouldClose i = false) (htrue : shouldClose n = true)
    (hfuel : n < fuel) :
    (Test01.main (Library.initReturns acquired shouldClose) fuel).trace
        = [Call.InitWindow 800 450 "Raylib Project", Call.SetTargetFPS 60]
          ++ (List.replicate n
                [Call.WindowShouldClose false,
                 Call.BeginDrawing,
                 Call.ClearBackground Color.RAYWHITE,
                 Call.DrawText "Hello, Raylib!" 190 200 20 Color.LIGHTGRAY,
                 Call.EndDrawing]).flatten
          ++ [Call.WindowShouldClose true, Call.CloseWindow]
      ∧ (Test01.main (Library.initReturns acquired shouldClose) fuel).outcome
          = Outcome.returned 0 := by
  rw [test01_main_eq_shell, shell_closes _ _ acquired shouldClose n fuel hfalse htrue hfuel,
    iterations_eq_flatten]
  exact ⟨rfl, rfl⟩

/-- Witness of C2 with one rendered frame. -/
theorem test01_scenario_witness :
    ((∀ i, i < 1 → (fun k => decide (1 ≤ k)) i = false) ∧ (fun k => decide (1 ≤ k)) 1 = true
      ∧ 1 < 5)
    ∧ (Test01.main (Library.initReturns true (fun k => decide (1 ≤ k))) 5).trace
        = [Call.InitWindow 800 450 "Raylib Project", Call.SetTargetFPS 60]
          ++ (List.replicate 1
                [Call.WindowShouldClose false,
                 Call.BeginDrawing,
                 Call.ClearBackground Color.RAYWHITE,
                 Call.DrawText "Hello, Raylib!" 190 200 20 Color.LIGHTGRAY,
                 Call.EndDrawing]).flatten
          ++ [Call.WindowShouldClose true, Call.CloseWindow]
    ∧ (Test01.main (Library.initReturns true (fun k => decide (1 ≤ k))) 5).outcome
        = Outcome.returned 0 :=
  ⟨⟨by decide, by decide, by decide⟩,
    test01_scenario 1 true (fun k => decide (1 ≤ k)) 5 (by decide) (by decide) (by decide)⟩

/-- C3: Test02 is identical to Booyah: for every library behaviour (every
sequence of poll answers, closing or never closing) and every bound on the
number of polls, the two `main` functions produce the same call trace with the
same arguments, the same outcome and so the same exit code. -/
theorem test02_eq_booyah (lib : Library) (fuel : Nat) :
    Test02.main lib fuel = Booyah.main lib fuel := by
  rw [test02_main_eq_shell, booyah_main_eq_shell]

/-- C8: the three instances are one shell parameterised by title and text: for
every library behaviour and every bound on the number of polls, each `main`
gives the same run (trace, outcome, exit code) as the shell at that instance's
two literals. -/
theorem instances_collapse (lib : Library) (fuel : Nat) :
    Booyah.main lib fuel = shell "Dendy Project" "Hello, sheep! Hello, cup of tea!" lib fuel
    ∧ Test01.main lib fuel = shell "Raylib Project" "Hello, Raylib!" lib fuel
    ∧ Test02.main lib fuel = shell "Dendy Project" "Hello, sheep! Hello, cup of tea!" lib fuel :=
  ⟨booyah_main_eq_shell lib fuel, test01_main_eq_shell lib fuel, test02_main_eq_shell lib fuel⟩

/-! ## Termination -/

/-- C6: clean exit, for each instance.  If the first `n` polls answer false and
poll `n + 1` answers true, then with fuel for those polls `main` returns 0 after
exactly `n + 1` polls and `n` frames, and with less fuel it is still running;
0 is the only value `main` ever returns; and if no poll ever answers true,
`main` is still running after any number of polls and never returns. -/
theorem clean_exit (inst : Instance) :
    (∀ (acquired : Bool) (shouldClose : Nat → Bool) (n : Nat),
        (∀ i, i < n → shouldClose i = false) → shouldClose n = true →
        (∀ fuel, n < fuel →
          (inst.main (Library.initReturns acquired shouldClose) fuel).outcome = Outcome.returned 0
          ∧ pollCount (inst.main (Library.initReturns acquired shouldClose) fuel).trace = n + 1
          ∧ frameCount (inst.main (Library.initReturns acquired shouldClose) fuel).trace = n)
        ∧ (∀ fuel, fuel ≤ n →
          (inst.main (Library.initReturns acquired shouldClose) fuel).outcome = Outcome.running))
    ∧ (∀ (lib : Library) (fuel : Nat) (code : Int),
        (inst.main lib fuel).outcome = Outcome.returned code → code = 0)
    ∧ (∀ (acquired : Bool) (shouldClose : Nat → Bool), (∀ i, shouldClose i = false) →
        ∀ fuel, (inst.main (Library.initReturns acquired shouldClose) fuel).outcome
          = Outcome.running) := by
  refine ⟨?_, ?_, ?_⟩
  · intro a sc n hfalse htrue
    constructor
    · intro fuel hfuel
      rw [instance_main_eq_shell, shell_closes _ _ a sc n fuel hfalse htrue hfuel]
      refine ⟨rfl, ?_, ?_⟩
      · simp only [pollCount_append, pollCount_startup, pollCount_iterations]
        simp [pollCount]
      · simp only [frameCount_append, frameCount_startup, frameCount_iterations]
        simp [frameCount]
    · intro fuel hfuel
      rw [instance_main_eq_shell,
        shell_runs _ _ a sc fuel (fun i hi => hfalse i (by omega))]
  · intro lib fuel code hret
    cases lib with
    | initAborts => rw [instance_main_initAborts] at hret; cases hret
    | initReturns a sc =>
      obtain ⟨n, -, ⟨-, hrun⟩ | ⟨-, -, hrun⟩⟩ := instance_main_shape inst a sc fuel
      · rw [hrun] at hret; cases hret
      · rw [hrun] at hret; cases hret; rfl
  · intro a sc hnever fuel
    rw [instance_main_eq_shell, shell_runs _ _ a sc fuel (fun i _ => hnever i)]

/-- Witness of C6: Test01 with one frame before the close signal. -/
theorem clean_exit_witness :
    ((∀ i, i < 1 → (fun k => decide (1 ≤ k)) i = false) ∧ (fun k => decide (1 ≤ k)) 1 = true)
    ∧ (Instance.Test01.main (Library.initReturns true (fun k => decide (1 ≤ k))) 4).outcome
        = Outcome.returned 0
    ∧ pollCount (Instance.Test01.main (Library.initReturns true (fun k => decide (1 ≤ k))) 4).trace
        = 1 + 1
    ∧ frameCount (Instance.Test01.main (Library.initReturns true (fun k => decide (1 ≤ k))) 4).trace
        = 1 :=
  ⟨⟨by decide, by decide⟩,
    ((clean_exit Instance.Test01).1 true (fun k => decide (1 ≤ k)) 1
      (by decide) (by decide)).1 4 (by decide)⟩

/-! ## Frames -/

/-- C4: in every instance and every run, each executed iteration issues the
frame and nothing else.  One pass of the loop body is begin-frame, one clear to
RAYWHITE, one draw of the instance text at (190, 200) with size 20 in
LIGHTGRAY, end-frame.  The trace is the two startup calls, then exactly `n`
iterations (a poll answering false followed by that frame), where `n` is the
number of polls the library answered false before the fuel ran out or the
first true answer, then nothing or the closing poll and `CloseWindow`.  Every
poll that answered false is directly followed by begin, clear, draw, end; every
drawing call is one of the four calls after such a poll, so none lies outside a
begin/end pair; and a run ended inside `InitWindow` has no drawing call. -/
theorem frame_structure (inst : Instance) (acquired : Bool) (shouldClose : Nat → Bool)
    (fuel : Nat) :
    (∀ s : Locals, inst.body s
        = ([Call.BeginDrawing,
            Call.ClearBackground Color.RAYWHITE,
            Call.DrawText inst.text 190 200 20 Color.LIGHTGRAY,
            Call.EndDrawing], s))
    ∧ (∃ (n : Nat) (after : List Call),
        (∀ i, i < n → shouldClose i = false)
        ∧ ((n = fuel ∧ after = [])
          ∨ (n < fuel ∧ shouldClose n = true
              ∧ after = [Call.WindowShouldClose true, Call.CloseWindow]))
        ∧ (inst.main (Library.initReturns acquired shouldClose) fuel).trace
          = [Call.InitWindow 800 450 inst.title, Call.SetTargetFPS 60]
            ++ (List.replicate n
                  [Call.WindowShouldClose false,
                   Call.BeginDrawing,
                   Call.ClearBackground Color.RAYWHITE,
                   Call.DrawText inst.text 190 200 20 Color.LIGHTGRAY,
                   Call.EndDrawing]).flatten
            ++ after)
    ∧ (∀ i, (inst.main (Library.initReturns acquired shouldClose) fuel).trace[i]?
          = some (Call.WindowShouldClose false) →
        (inst.main (Library.initReturns acquired shouldClose) fuel).trace[i + 1]?
          = some Call.BeginDrawing
        ∧ (inst.main (Library.initReturns acquired shouldClose) fuel).trace[i + 2]?
          = some (Call.ClearBackground Color.RAYWHITE)
        ∧ (inst.main (Library.initReturns acquired shouldClose) fuel).trace[i + 3]?
          = some (Call.DrawText inst.text 190 200 20 Color.LIGHTGRAY)
        ∧ (inst.main (Library.initReturns acquired shouldClose) fuel).trace[i + 4]?
          = some Call.EndDrawing)
    ∧ (∀ i c, (inst.main (Library.initReturns acquired shouldClose) fuel).trace[i]? = some c →
        c.isDrawing = true →
        ∃ j, j < i ∧ i ≤ j + 4
          ∧ (inst.main (Library.initReturns acquired shouldClose) fuel).trace[j]?
            = some (Call.WindowShouldClose false))
    ∧ (∀ c ∈ (inst.main Library.initAborts fuel).trace, c.isDrawing = false) := by
  have hframed := instance_main_framed inst acquired shouldClose fuel
  refine ⟨?_, ?_, fun i => (hframed i).1, fun i c => (hframed i).2 c, ?_⟩
  · intro s
    cases inst <;> rfl
  · obtain ⟨n, hfalse, ⟨hn, hrun⟩ | ⟨hn, htrue, hrun⟩⟩ :=
      instance_main_shape inst acquired shouldClose fuel
    · refine ⟨n, [], hfalse, Or.inl ⟨hn, rfl⟩, ?_⟩
      rw [hrun, iterations_eq_flatten]; simp [startup, renderFrame]
    · refine ⟨n, [Call.WindowShouldClose true, Call.CloseWindow], hfalse,
        Or.inr ⟨hn, htrue, rfl⟩, ?_⟩
      rw [hrun, iterations_eq_flatten]; simp [startup, renderFrame]
  · intro c hc
    rw [instance_main_initAborts] at hc
    simp only [List.mem_singleton] at hc
    subst hc; rfl

/-- C7: idempotence of the frame, for each instance.  A run of exactly `N`
iterations draws `N` frames, each the same fixed frame; in any run any two
frames of the trace are equal; the loop body issues the same calls whatever the
locals are and leaves them as it found them; and the locals at the end of a run
are the initial ones. -/
theorem renderFrame_idempotent (inst : Instance) (acquired : Bool) (shouldClose : Nat → Bool) :
    (∀ N, (∀ i, i < N → shouldClose i = false) →
        framesOf (inst.main (Library.initReturns acquired shouldClose) N).trace
          = List.replicate N
              [Call.BeginDrawing,
               Call.ClearBackground Color.RAYWHITE,
               Call.DrawText inst.text 190 200 20 Color.LIGHTGRAY,
               Call.EndDrawing])
    ∧ (∀ fuel f g,
        f ∈ framesOf (inst.main (Library.initReturns acquired shouldClose) fuel).trace →
        g ∈ framesOf (inst.main (Library.initReturns acquired shouldClose) fuel).trace → f = g)
    ∧ (∀ s s1 : Locals, (inst.body s).2 = s ∧ (inst.body s).1 = (inst.body s1).1)
    ∧ (∀ fuel, (inst.main (Library.initReturns acquired shouldClose) fuel).locals
        = { screenWidth := 800, screenHeight := 450 }) := by
  refine ⟨?_, ?_, ?_, ?_⟩
  · intro N hfalse
    rw [instance_main_eq_shell, shell_runs _ _ acquired shouldClose N hfalse]
    simp only [framesOf_startup]
    have h := framesFrom_iterations inst.text N []
    simp only [List.append_nil] at h
    rw [h]
    simp [framesFrom, renderFrame]
  · intro fuel f g hf hg
    have hall : ∀ x, x ∈ framesOf (inst.main (Library.initReturns acquired shouldClose) fuel).trace
        → x = renderFrame inst.text := by
      intro x hx
      obtain ⟨n, -, ⟨-, hrun⟩ | ⟨-, -, hrun⟩⟩ := instance_main_shape inst acquired shouldClose fuel
      · rw [hrun] at hx
        simp only [framesOf_startup] at hx
        have h := framesFrom_iterations inst.text n []
        simp only [List.append_nil] at h
        rw [h] at hx
        simp only [framesFrom, List.append_nil] at hx
        exact List.eq_of_mem_replicate hx
      · rw [hrun] at hx
        simp only [List.append_assoc, framesOf_startup] at hx
        rw [framesFrom_iterations] at hx
        simp only [framesFrom, List.append_nil] at hx
        exact List.eq_of_mem_replicate hx
    rw [hall f hf, hall g hg]
  · intro s s1
    cases inst <;> exact ⟨rfl, rfl⟩
  · intro fuel
    obtain ⟨n, -, ⟨-, hrun⟩ | ⟨-, -, hrun⟩⟩ := instance_main_shape inst acquired shouldClose fuel
    · rw [hrun]; rfl
    · rw [hrun]; rfl

/-- Witness of C7: three iterations of Test02 draw three equal frames. -/
theorem renderFrame_idempotent_witness :
    (∀ i, i < 3 → (fun _ : Nat => false) i = false)
    ∧ framesOf (Instance.Test02.main (Library.initReturns true (fun _ => false)) 3).trace
        = List.replicate 3
            [Call.BeginDrawing,
             Call.ClearBackground Color.RAYWHITE,
             Call.DrawText Instance.Test02.text 190 200 20 Color.LIGHTGRAY,
             Call.EndDrawing] :=
  ⟨by decide,
    (renderFrame_idempotent Instance.Test02 true (fun _ => false)).1 3 (by decide)⟩

/-! ## Shutdown and polling -/

/-- C5: shutdown, for each instance, every library behaviour and every bound on
the number of polls.  `CloseWindow` occurs at most once in the trace; exactly
once when `main` has returned; wherever it occurs it is the last call of the
trace and the call just before it is the first poll that answered true (no
earlier poll answered true and no earlier call is `CloseWindow`). -/
theorem shutdown_once (inst : Instance) (lib : Library) (fuel : Nat) :
    (inst.main lib fuel).trace.count Call.CloseWindow ≤ 1
    ∧ (∀ code, (inst.main lib fuel).outcome = Outcome.returned code →
        (inst.main lib fuel).trace.count Call.CloseWindow = 1)
    ∧ (∀ a b, (inst.main lib fuel).trace = a ++ Call.CloseWindow :: b →
        b = [] ∧ ∃ a1, a = a1 ++ [Call.WindowShouldClose true]
          ∧ Call.WindowShouldClose true ∉ a1 ∧ Call.CloseWindow ∉ a1) := by
  cases lib with
  | initAborts =>
    rw [instance_main_initAborts]
    refine ⟨by simp, (fun code h => by cases h), ?_⟩
    intro a b h
    have hmem : Call.CloseWindow ∈ [Call.InitWindow 800 450 inst.title] := by
      rw [show [Call.InitWindow 800 450 inst.title] = a ++ Call.CloseWindow :: b from h]; simp
    simp at hmem
  | initReturns acq sc =>
    have hstart : Call.CloseWindow ∉ startup inst.title := by simp [startup]
    have hstart2 : Call.WindowShouldClose true ∉ startup inst.title := by simp [startup]
    obtain ⟨n, -, ⟨-, hrun⟩ | ⟨-, -, hrun⟩⟩ := instance_main_shape inst acq sc fuel
    · rw [hrun]
      have hnot : Call.CloseWindow ∉ startup inst.title ++ iterations inst.text n := by
        simp [hstart, closeWindow_not_mem_iterations]
      refine ⟨?_, (fun code h => by cases h), ?_⟩
      · rw [List.count_eq_zero_of_not_mem hnot]; omega
      · intro a b h
        exact absurd (by rw [show startup inst.title ++ iterations inst.text n
          = a ++ Call.CloseWindow :: b from h]; simp) hnot
    · rw [hrun]
      have hnot : Call.CloseWindow ∉ startup inst.title ++ iterations inst.text n := by
        simp [hstart, closeWindow_not_mem_iterations]
      have hnot2 : Call.WindowShouldClose true ∉ startup inst.title ++ iterations inst.text n := by
        simp [hstart2, closingPoll_not_mem_iterations]
      have hcount : (startup inst.title ++ iterations inst.text n
          ++ [Call.WindowShouldClose true, Call.CloseWindow]).count Call.CloseWindow = 1 := by
        rw [List.count_append, List.count_eq_zero_of_not_mem hnot]
        simp [List.count_cons]
      refine ⟨le_of_eq hcount, fun _ _ => hcount, ?_⟩
      intro a b h
      obtain ⟨ha, hb⟩ := split_at_final Call.CloseWindow (Call.WindowShouldClose true)
        (by simp) _ a b hnot h
      exact ⟨hb, _, ha, hnot2, hnot⟩

/-- C10: the close signal is polled once per iteration, in each instance.  A
run starts with `InitWindow(800, 450, title)` then `SetTargetFPS(60)` and has no
other call of either; it continues with `n` iterations, each one poll answering
false followed by the frame, where the library did answer false to polls
`1..n`; then it is either still running, or ends with the poll `n + 1` that
answered true and `CloseWindow`.  A frame begins exactly after a poll that
answered false.  A run that has returned has one more poll than frames. -/
theorem poll_once_per_iteration (inst : Instance) (acquired : Bool) (shouldClose : Nat → Bool)
    (fuel : Nat) :
    (∃ n, (∀ i, i < n → shouldClose i = false)
      ∧ (((inst.main (Library.initReturns acquired shouldClose) fuel).trace
            = [Call.InitWindow 800 450 inst.title, Call.SetTargetFPS 60]
              ++ (List.replicate n
                    ([Call.WindowShouldClose false] ++ renderFrame inst.text)).flatten
          ∧ (inst.main (Library.initReturns acquired shouldClose) fuel).outcome
              = Outcome.running)
        ∨ ((inst.main (Library.initReturns acquired shouldClose) fuel).trace
            = [Call.InitWindow 800 450 inst.title, Call.SetTargetFPS 60]
              ++ (List.replicate n
                    ([Call.WindowShouldClose false] ++ renderFrame inst.text)).flatten
              ++ [Call.WindowShouldClose true, Call.CloseWindow]
          ∧ shouldClose n = true
          ∧ (inst.main (Library.initReturns acquired shouldClose) fuel).outcome
              = Outcome.returned 0)))
    ∧ (∃ rest, (inst.main (Library.initReturns acquired shouldClose) fuel).trace
          = Call.InitWindow 800 450 inst.title :: Call.SetTargetFPS 60 :: rest
        ∧ ∀ c ∈ rest, (∀ w h t, c ≠ Call.InitWindow w h t) ∧ (∀ fps, c ≠ Call.SetTargetFPS fps))
    ∧ (∀ i, (inst.main (Library.initReturns acquired shouldClose) fuel).trace[i + 1]?
          = some Call.BeginDrawing
        ↔ (inst.main (Library.initReturns acquired shouldClose) fuel).trace[i]?
          = some (Call.WindowShouldClose false))
    ∧ (∀ code, (inst.main (Library.initReturns acquired shouldClose) fuel).outcome
          = Outcome.returned code →
        pollCount (inst.main (Library.initReturns acquired shouldClose) fuel).trace
          = frameCount (inst.main (Library.initReturns acquired shouldClose) fuel).trace + 1)
    ∧ ((inst.main (Library.initReturns acquired shouldClose) fuel).outcome = Outcome.running →
        pollCount (inst.main (Library.initReturns acquired shouldClose) fuel).trace
          = frameCount (inst.main (Library.initReturns acquired shouldClose) fuel).trace) := by
  have hiter : ∀ n c, c ∈ iterations inst.text n →
      (∀ w h t, c ≠ Call.InitWindow w h t) ∧ (∀ fps, c ≠ Call.SetTargetFPS fps) := by
    intro n
    induction n with
    | zero => intro c hc; simp [iterations] at hc
    | succ n ih =>
      intro c hc
      simp only [iterations, renderFrame, List.cons_append, List.nil_append, List.mem_cons] at hc
      rcases hc with rfl | rfl | rfl | rfl | rfl | hc
      · exact ⟨by simp, by simp⟩
      · exact ⟨by simp, by simp⟩
      · exact ⟨by simp, by simp⟩
      · exact ⟨by simp, by simp⟩
      · exact ⟨by simp, by simp⟩
      · exact ih c hc
  obtain ⟨n, hfalse, ⟨-, hrun⟩ | ⟨-, htrue, hrun⟩⟩ :=
    instance_main_shape inst acquired shouldClose fuel
  · rw [hrun]
    refine ⟨⟨n, hfalse, Or.inl ⟨?_, rfl⟩⟩, ⟨iterations inst.text n, rfl, hiter n⟩, ?_, ?_, ?_⟩
    · simp [startup, iterations_eq_flatten]
    · have h := (iterations_adjacent inst.text [] (by simp) (by simp) n)
      simp only [List.append_nil] at h
      intro i
      rcases i with _ | _ | j
      · simp [startup]
      · simpa [startup] using h.1
      · simpa [startup] using h.2 j
    · intro code h; cases h
    · intro _
      simp only [pollCount_append, pollCount_startup, pollCount_iterations,
        frameCount_append, frameCount_startup, frameCount_iterations]
  · rw [hrun]
    refine ⟨⟨n, hfalse, Or.inr ⟨?_, htrue, rfl⟩⟩,
      ⟨iterations inst.text n ++ [Call.WindowShouldClose true, Call.CloseWindow], ?_, ?_⟩,
      ?_, ?_, ?_⟩
    · simp [startup, iterations_eq_flatten]
    · simp [startup]
    · intro c hc
      rcases List.mem_append.mp hc with hc | hc
      · exact hiter n c hc
      · simp only [List.mem_cons, List.mem_singleton, List.not_mem_nil, or_false] at hc
        rcases hc with rfl | rfl
        · exact ⟨by simp, by simp⟩
        · exact ⟨by simp, by simp⟩
    · have h := (iterations_adjacent inst.text
        [Call.WindowShouldClose true, Call.CloseWindow] (by simp)
        (by intro i; rcases i with _ | _ | j <;> simp) n)
      intro i
      rcases i with _ | _ | j
      · simp [startup]
      · simpa [startup] using h.1
      · simpa [startup] using h.2 j
    · intro _ _
      simp only [pollCount_append, pollCount_startup, pollCount_iterations,
        frameCount_append, frameCount_startup, frameCount_iterations]
      simp [pollCount, frameCount]
    · intro h; cases h

/-! ## Startup failure -/

/-- With a display, the modelled library returns from `InitWindow` and the
program goes on to `SetTargetFPS(60)`. -/
theorem startup_with_display (inst : Instance) (p : Platform) (fuel : Nat)
    (hdisplay : p.displayAvailable = true) :
    ∃ rest, (inst.main (raylib p) fuel).trace
      = Call.InitWindow 800 450 inst.title :: Call.SetTargetFPS 60 :: rest := by
  obtain ⟨n, -, ⟨-, hrun⟩ | ⟨-, -, hrun⟩⟩ := instance_main_shape inst true p.shouldClose fuel
  · exact ⟨iterations inst.text n, by simp only [raylib, hdisplay, if_true]; rw [hrun]; rfl⟩
  · exact ⟨iterations inst.text n ++ [Call.WindowShouldClose true, Call.CloseWindow],
      by simp only [raylib, hdisplay, if_true]; rw [hrun]; simp [startup]⟩

/-- C9: startup failure is fatal, in each instance, against the library as the
specification describes it.  If the display cannot be acquired, the run ends
inside `InitWindow`: that call, with the instance's 800 by 450 size and title,
is the whole trace, so no `SetTargetFPS`, no close poll, no drawing call and no
`CloseWindow` follows it, and `main` does not return, with exit code 0 or any
other. -/
theorem startup_failure_fatal (inst : Instance) (p : Platform) (fuel : Nat)
    (hfail : p.displayAvailable = false) :
    (inst.main (raylib p) fuel).trace = [Call.InitWindow 800 450 inst.title]
    ∧ (∀ fps, Call.SetTargetFPS fps ∉ (inst.main (raylib p) fuel).trace)
    ∧ (∀ answer, Call.WindowShouldClose answer ∉ (inst.main (raylib p) fuel).trace)
    ∧ (∀ c ∈ (inst.main (raylib p) fuel).trace, c.isDrawing = false)
    ∧ Call.CloseWindow ∉ (inst.main (raylib p) fuel).trace
    ∧ (inst.main (raylib p) fuel).outcome = Outcome.aborted
    ∧ (∀ code, (inst.main (raylib p) fuel).outcome ≠ Outcome.returned code) := by
  have hlib : raylib p = Library.initAborts := by simp [raylib, hfail]
  rw [hlib, instance_main_initAborts]
  refine ⟨rfl, by simp, by simp, ?_, by simp, rfl, by simp⟩
  intro c hc
  simp only [List.mem_singleton] at hc
  subst hc; rfl

/-- Witness of C9: Test01 on a platform without a display. -/
theorem startup_failure_fatal_witness :
    ({ displayAvailable := false, shouldClose := fun _ => true } : Platform).displayAvailable
        = false
    ∧ (Instance.Test01.main
          (raylib { displayAvailable := false, shouldClose := fun _ => true }) 3).trace
        = [Call.InitWindow 800 450 "Raylib Project"]
    ∧ (Instance.Test01.main
          (raylib { displayAvailable := false, shouldClose := fun _ => true }) 3).outcome
        = Outcome.aborted :=
  ⟨rfl,
    (startup_failure_fatal Instance.Test01
      { displayAvailable := false, shouldClose := fun _ => true } 3 rfl).1,
    (startup_failure_fatal Instance.Test01
      { displayAvailable := false, shouldClose := fun _ => true } 3 rfl).2.2.2.2.2.1⟩

end Dendy
